import Mathlib

/-!
Shallow embedding of `src/safe_t_logic.py` (SAFE-T Guard 2026): an Amazon
SAFE-T return-claim deadline checker.  Time instants are modelled as integer
seconds since the Unix epoch (UTC); Python `//` and `%` on a positive divisor
coincide with Lean's `Int` `/` (`Int.ediv`) and `%` (`Int.emod`).
Python dictionaries with branch-dependent key sets are modelled as structures
with `Option` fields; accessing an absent key (Python `KeyError`) is modelled
as `Except.error`.
-/

namespace SafeT

/-! ### Identifier validation: `check_order_id_format`

The source compiles `^\d{3}-\d{4}-\d{3}$` and calls `re.match`.  `re.match`
anchors at the start; the pattern consumes twelve characters and then `$`
succeeds exactly when the position is at the end of the string or just
before a single final newline (Python `$` semantics, not `\Z`).  `\d` is
modelled as an ASCII digit. -/

/-- The fixed-length body `\d{3}-\d{4}-\d{3}` followed by `$` under Python
`re.match` semantics: twelve matching characters, then either the end of the
string or one final newline. -/
def id_regex_match : List Char → Bool
  | a :: b :: c :: x :: d :: e :: f :: g :: y :: h :: i :: j :: rest =>
      a.isDigit && b.isDigit && c.isDigit && (x == '-') &&
      d.isDigit && e.isDigit && f.isDigit && g.isDigit && (y == '-') &&
      h.isDigit && i.isDigit && j.isDigit &&
      (rest == [] || rest == ['\n'])
  | _ => false

/-- Model of `check_order_id_format` from the source: falsy (empty) input returns
`False`, otherwise the anchored regex match decides. -/
def check_order_id_format (order_id : String) : Bool :=
  if order_id = "" then false
  else id_regex_match order_id.toList

/-- Spec-side definition, following the spec's words only: true iff the
entire string is exactly three digits, hyphen, four digits, hyphen, three
digits — anchored at both ends, no extra characters tolerated. -/
def spec_order_id_format (s : String) : Bool :=
  match s.toList with
  | [a, b, c, x, d, e, f, g, y, h, i, j] =>
      a.isDigit && b.isDigit && c.isDigit && (x == '-') &&
      d.isDigit && e.isDigit && f.isDigit && g.isDigit && (y == '-') &&
      h.isDigit && i.isDigit && j.isDigit
  | _ => false

/-! ### Date parsing: `datetime.strptime(order_date_str, "%Y-%m-%d")`

CPython's `_strptime` compiles `%Y` to four digits, `%m` to a one- or
two-digit month in 1..12, `%d` to a one- or two-digit day in 1..31, requires
the whole string to be consumed, and the `datetime` constructor then rejects
a day that does not exist in the given month and a year outside 1..9999. -/

structure Date where
  year : Nat
  month : Nat
  day : Nat
deriving DecidableEq, Repr

def isLeapYear (y : Nat) : Bool :=
  y % 4 = 0 && (y % 100 ≠ 0 || y % 400 = 0)

def daysInMonth (y m : Nat) : Nat :=
  if m = 2 then (if isLeapYear y then 29 else 28)
  else if m = 4 || m = 6 || m = 9 || m = 11 then 30
  else 31

/-- Split a character list at every hyphen (the separators of the
`%Y-%m-%d` layout); hyphens cannot occur inside a digit group. -/
def splitOnHyphen : List Char → List (List Char)
  | [] => [[]]
  | c :: rest =>
    if c = '-' then [] :: splitOnHyphen rest
    else
      match splitOnHyphen rest with
      | [] => [[c]]
      | p :: ps => (c :: p) :: ps

/-- Numeric value of a nonempty all-digit character group, `none` otherwise. -/
def digitsVal? (l : List Char) : Option Nat :=
  if l ≠ [] ∧ l.all Char.isDigit then
    some (l.foldl (fun n c => 10 * n + (c.toNat - 48)) 0)
  else none

/-- Model of `datetime.strptime(s, "%Y-%m-%d")`: `some` on success, `none`
where Python raises `ValueError`. -/
def parseDate (s : String) : Option Date :=
  match splitOnHyphen s.toList with
  | [ys, ms, ds] =>
    match digitsVal? ys, digitsVal? ms, digitsVal? ds with
    | some y, some m, some d =>
      if ys.length = 4 && (ms.length = 1 || ms.length = 2) &&
         (ds.length = 1 || ds.length = 2) &&
         1 ≤ y && 1 ≤ m && m ≤ 12 && 1 ≤ d && d ≤ daysInMonth y m
      then some ⟨y, m, d⟩ else none
    | _, _, _ => none
  | _ => none

/-- Days from 1970-01-01 to the given civil date (proleptic Gregorian),
the standard days-from-civil computation; `date * 86400` is the Unix time
of that date's UTC midnight, which is what
`utcnow().replace(year=..., month=..., day=..., hour=0, minute=0, second=0,
microsecond=0)` produces in the source. -/
def daysFromCivil (y m d : Nat) : Int :=
  let yAdj : Int := if m ≤ 2 then (y : Int) - 1 else (y : Int)
  let era : Int := yAdj / 400
  let yoe : Int := yAdj - era * 400
  let mp : Int := ((m : Int) + 9) % 12
  let doy : Int := (153 * mp + 2) / 5 + (d : Int) - 1
  let doe : Int := yoe * 365 + yoe / 4 - yoe / 100 + doy
  era * 146097 + doe - 719468

/-- UTC midnight of a calendar date, in seconds since the epoch. -/
def utcMidnight (d : Date) : Int :=
  daysFromCivil d.year d.month d.day * 86400

/-! ### Deadline calculation: `check_safet_deadline` -/

/-- The result dictionary of `check_safet_deadline`.  The `ERROR` branch of
the source builds a dictionary with keys `status, message, days_left,
hours_left, time_left_str, color`; the three time-based branches instead
carry `message_zh, message_en, time_left_str_zh, time_left_str_en`.  Keys
absent in a branch are `none`. -/
structure DeadlineResult where
  status : String
  message : Option String
  message_zh : Option String
  message_en : Option String
  days_left : Int
  hours_left : Int
  time_left_str : Option String
  time_left_str_zh : Option String
  time_left_str_en : Option String
  color : String
deriving DecidableEq, Repr

/-- Model of `check_safet_deadline(order_date_str)` with the implicit
`datetime.datetime.utcnow()` made an explicit parameter `now` (seconds since
epoch).  The `.replace(...)` call overwrites every time field, so the order
date's UTC midnight does not depend on when `utcnow` was sampled. -/
def check_safet_deadline (order_date_str : String) (now : Int) : DeadlineResult :=
  match parseDate order_date_str with
  | none =>
      { status := "ERROR"
        message := some "❌ 订单日期格式错误！请输入 YYYY-MM-DD 格式"
        message_zh := none
        message_en := none
        days_left := 0
        hours_left := 0
        time_left_str := some ""
        time_left_str_zh := none
        time_left_str_en := none
        color := "orange" }
  | some order_date =>
      let utc_order_date := utcMidnight order_date
      let deadline := utc_order_date + 30 * 86400
      let diff_seconds := deadline - now
      let days_left := diff_seconds / (24 * 3600)
      let hours_left := (diff_seconds % (24 * 3600)) / 3600
      let time_left_str_zh :=
        if days_left > 0 then toString days_left ++ "天" ++ toString hours_left ++ "小时"
        else toString hours_left ++ "小时"
      let time_left_str_en :=
        if days_left > 0 then toString days_left ++ "d " ++ toString hours_left ++ "h"
        else toString hours_left ++ "h"
      if diff_seconds ≤ 0 then
        { status := "EXPIRED"
          message := none
          message_zh := some "❌ 已过期！触发2026/02/16新政30天自动拒绝规则，UTC时间已超期。"
          message_en := some "❌ Expired! Triggered 2026/02/16 new policy 30-day automatic rejection rule, UTC time overdue."
          days_left := days_left
          hours_left := hours_left
          time_left_str := none
          time_left_str_zh := some time_left_str_zh
          time_left_str_en := some time_left_str_en
          color := "gray" }
      else if days_left ≤ 5 then
        { status := "URGENT"
          message := none
          message_zh := some ("🚨 紧急！仅剩" ++ time_left_str_zh ++ "处理窗口，请立即准备证据链（重量/物流/序列号）。")
          message_en := some ("🚨 Urgent! Only " ++ time_left_str_en ++ " remaining in processing window, prepare evidence chain immediately (weight/logistics/serial number).")
          days_left := days_left
          hours_left := hours_left
          time_left_str := none
          time_left_str_zh := some time_left_str_zh
          time_left_str_en := some time_left_str_en
          color := "red" }
      else
        { status := "SAFE"
          message := none
          message_zh := some ("✅ 安全！剩余" ++ time_left_str_zh ++ "处理窗口，可合理安排索赔操作。")
          message_en := some ("✅ Safe! " ++ time_left_str_en ++ " remaining in processing window, arrange claim operations reasonably.")
          days_left := days_left
          hours_left := hours_left
          time_left_str := none
          time_left_str_zh := some time_left_str_zh
          time_left_str_en := some time_left_str_en
          color := "green" }

/-! ### Appeal-draft templating: `generate_ai_appeal_draft` -/

def emptyBoxTemplate (order_id : String) : String :=
  "Dear Amazon Support,\n" ++
  "This is a formal SAFE-T claim for Order " ++ order_id ++ " (adapt to Amazon 2026 30-day new policy).\n" ++
  "The buyer returned an EMPTY PACKAGE, which is a suspicious return behavior. Our outbound shipping weight was 0.8kg, but the returned weight was only 0.05kg (no product included).\n" ++
  "We request Amazon to review this claim and arrange the corresponding reimbursement as soon as possible.\n" ++
  "Thank you for your processing!"

def damagedTemplate (order_id : String) : String :=
  "Dear Amazon Support,\n" ++
  "This is a formal SAFE-T claim for Order " ++ order_id ++ " (adapt to Amazon 2026 30-day new policy).\n" ++
  "The product was returned in unsellable condition: it is heavily used with obvious scratches and the original packaging is missing.\n" ++
  "According to Amazon's rules, we request a 50% restocking fee for this order. Please review and confirm.\n" ++
  "Thank you for your processing!"

def switchedTemplate (order_id : String) : String :=
  "Dear Amazon Support,\n" ++
  "This is a formal SAFE-T claim for Order " ++ order_id ++ " (adapt to Amazon 2026 30-day new policy).\n" ++
  "The item returned by the buyer is NOT the one we shipped: the serial number on the returned item does not match our outbound delivery records.\n" ++
  "This is a clear product switching behavior, we request Amazon to investigate and arrange full reimbursement.\n" ++
  "Thank you for your processing!"

def invalidIdMessage : String :=
  "❌ Invalid Order ID format! Please enter like 114-9283-001"

def unsupportedReasonMessage : String :=
  "❌ Unsupported claim reason! Please select EMPTY_BOX/DAMAGED/SWITCHED."

/-- Model of `generate_ai_appeal_draft(reason_code, order_id)` from the source:
re-validates the identifier, then `templates.get(reason_code, default)`. -/
def generate_ai_appeal_draft (reason_code order_id : String) : String :=
  if ¬ check_order_id_format order_id then invalidIdMessage
  else if reason_code = "EMPTY_BOX" then emptyBoxTemplate order_id
  else if reason_code = "DAMAGED" then damagedTemplate order_id
  else if reason_code = "SWITCHED" then switchedTemplate order_id
  else unsupportedReasonMessage

/-! ### Aggregation: `generate_dashboard_data` -/

structure OrderClaim where
  order_id : String
  order_date : String
deriving DecidableEq, Repr

structure OrderDetail where
  order_id : String
  order_date : String
  status : String
  time_left_zh : String
  time_left_en : String
  message_zh : String
  message_en : String
deriving DecidableEq, Repr

structure Dashboard where
  total_orders : Nat
  expired_orders : Nat
  urgent_orders : Nat
  safe_orders : Nat
  order_details : List OrderDetail
deriving DecidableEq, Repr

/-- Python `result[k]` on a dictionary that may lack key `k`: a `KeyError`
propagates out of `generate_dashboard_data`, modelled as `Except.error`. -/
def getKey (v : Option String) (k : String) : Except String String :=
  match v with
  | some s => Except.ok s
  | none => Except.error ("KeyError: " ++ k)

/-- One iteration of the aggregation loop: skip an invalid identifier,
otherwise evaluate the deadline, append the detail record (reading the
result's keys in the source's order), and bump the matching counter. -/
def processOrder (now : Int) (db : Dashboard) (order : OrderClaim) :
    Except String Dashboard :=
  if ¬ check_order_id_format order.order_id then Except.ok db
  else
    let result := check_safet_deadline order.order_date now
    do
      let tzh ← getKey result.time_left_str_zh "time_left_str_zh"
      let ten ← getKey result.time_left_str_en "time_left_str_en"
      let mzh ← getKey result.message_zh "message_zh"
      let men ← getKey result.message_en "message_en"
      let db := { db with order_details := db.order_details ++
        [{ order_id := order.order_id
           order_date := order.order_date
           status := result.status
           time_left_zh := tzh
           time_left_en := ten
           message_zh := mzh
           message_en := men }] }
      let db :=
        if result.status = "EXPIRED" then
          { db with expired_orders := db.expired_orders + 1 }
        else if result.status = "URGENT" then
          { db with urgent_orders := db.urgent_orders + 1 }
        else if result.status = "SAFE" then
          { db with safe_orders := db.safe_orders + 1 }
        else db
      Except.ok db

/-- The built-in demonstration batch (`test_orders` default data). -/
def default_test_orders : List OrderClaim :=
  [{ order_id := "114-9283-001", order_date := "2026-02-10" },
   { order_id := "225-8765-002", order_date := "2026-01-05" },
   { order_id := "336-7654-003", order_date := "2026-02-01" }]

/-- Default substitution `if not test_orders:` — `None` and the empty list are both falsy and
trigger the default demonstration batch. -/
def effectiveOrders (test_orders : Option (List OrderClaim)) : List OrderClaim :=
  match test_orders with
  | none => default_test_orders
  | some [] => default_test_orders
  | some (o :: rest) => o :: rest

/-- Model of `generate_dashboard_data(test_orders=None)` with the reference instant
made explicit.  `total_orders` is initialised to `len(test_orders)` before
the loop and never touched again. -/
def generate_dashboard_data (now : Int) (test_orders : Option (List OrderClaim)) :
    Except String Dashboard :=
  let orders := effectiveOrders test_orders
  orders.foldlM (processOrder now)
    { total_orders := orders.length
      expired_orders := 0
      urgent_orders := 0
      safe_orders := 0
      order_details := [] }

/-! ### Helper lemmas about `check_safet_deadline` on a parseable date -/

/-- On a parseable date the calculator lands in one of the three time-based
branches, whose fields are fully determined by `diff = deadline - now`. -/
theorem check_safet_deadline_valid (s : String) (d : Date) (now : Int)
    (h : parseDate s = some d) :
    check_safet_deadline s now =
      (let diff_seconds := utcMidnight d + 30 * 86400 - now
       let days_left := diff_seconds / (24 * 3600)
       let hours_left := (diff_seconds % (24 * 3600)) / 3600
       let time_left_str_zh :=
         if days_left > 0 then toString days_left ++ "天" ++ toString hours_left ++ "小时"
         else toString hours_left ++ "小时"
       let time_left_str_en :=
         if days_left > 0 then toString days_left ++ "d " ++ toString hours_left ++ "h"
         else toString hours_left ++ "h"
       if diff_seconds ≤ 0 then
         { status := "EXPIRED"
           message := none
           message_zh := some "❌ 已过期！触发2026/02/16新政30天自动拒绝规则，UTC时间已超期。"
           message_en := some "❌ Expired! Triggered 2026/02/16 new policy 30-day automatic rejection rule, UTC time overdue."
           days_left := days_left
           hours_left := hours_left
           time_left_str := none
           time_left_str_zh := some time_left_str_zh
           time_left_str_en := some time_left_str_en
           color := "gray" }
       else if days_left ≤ 5 then
         { status := "URGENT"
           message := none
           message_zh := some ("🚨 紧急！仅剩" ++ time_left_str_zh ++ "处理窗口，请立即准备证据链（重量/物流/序列号）。")
           message_en := some ("🚨 Urgent! Only " ++ time_left_str_en ++ " remaining in processing window, prepare evidence chain immediately (weight/logistics/serial number).")
           days_left := days_left
           hours_left := hours_left
           time_left_str := none
           time_left_str_zh := some time_left_str_zh
           time_left_str_en := some time_left_str_en
           color := "red" }
       else
         { status := "SAFE"
           message := none
           message_zh := some ("✅ 安全！剩余" ++ time_left_str_zh ++ "处理窗口，可合理安排索赔操作。")
           message_en := some ("✅ Safe! " ++ time_left_str_en ++ " remaining in processing window, arrange claim operations reasonably.")
           days_left := days_left
           hours_left := hours_left
           time_left_str := none
           time_left_str_zh := some time_left_str_zh
           time_left_str_en := some time_left_str_en
           color := "green" }) := by
  unfold check_safet_deadline
  rw [h]

/-- On an unparseable date the calculator returns the fixed `ERROR` record. -/
theorem check_safet_deadline_invalid (s : String) (now : Int)
    (h : parseDate s = none) :
    check_safet_deadline s now =
      { status := "ERROR"
        message := some "❌ 订单日期格式错误！请输入 YYYY-MM-DD 格式"
        message_zh := none
        message_en := none
        days_left := 0
        hours_left := 0
        time_left_str := some ""
        time_left_str_zh := none
        time_left_str_en := none
        color := "orange" } := by
  unfold check_safet_deadline
  rw [h]

/-- Projections of the three time-based branches: status, the two
decomposed fields and the color are pure functions of `diff`. -/
theorem check_valid_fields (s : String) (d : Date) (now : Int)
    (h : parseDate s = some d) :
    (check_safet_deadline s now).status =
      (if utcMidnight d + 30 * 86400 - now ≤ 0 then "EXPIRED"
       else if (utcMidnight d + 30 * 86400 - now) / (24 * 3600) ≤ 5 then "URGENT"
       else "SAFE") ∧
    (check_safet_deadline s now).days_left =
      (utcMidnight d + 30 * 86400 - now) / (24 * 3600) ∧
    (check_safet_deadline s now).hours_left =
      ((utcMidnight d + 30 * 86400 - now) % (24 * 3600)) / 3600 ∧
    (check_safet_deadline s now).time_left_str_zh =
      some (if (utcMidnight d + 30 * 86400 - now) / (24 * 3600) > 0 then
              toString ((utcMidnight d + 30 * 86400 - now) / (24 * 3600)) ++ "天" ++
                toString (((utcMidnight d + 30 * 86400 - now) % (24 * 3600)) / 3600) ++ "小时"
            else toString (((utcMidnight d + 30 * 86400 - now) % (24 * 3600)) / 3600) ++ "小时") ∧
    (check_safet_deadline s now).time_left_str_en =
      some (if (utcMidnight d + 30 * 86400 - now) / (24 * 3600) > 0 then
              toString ((utcMidnight d + 30 * 86400 - now) / (24 * 3600)) ++ "d " ++
                toString (((utcMidnight d + 30 * 86400 - now) % (24 * 3600)) / 3600) ++ "h"
            else toString (((utcMidnight d + 30 * 86400 - now) % (24 * 3600)) / 3600) ++ "h") := by
  rw [check_safet_deadline_valid s d now h]
  dsimp only
  split_ifs <;> simp_all

/-! ### C3 -/

/-- C3: for every valid `order_date` and reference instant `now`, the status
is `EXPIRED` iff `now ≥ UTC-midnight(order_date) + 30 days`; in particular a
difference of exactly 0 seconds is `EXPIRED` (inclusive expiry boundary). -/
theorem C3_expired_iff_past_deadline (s : String) (d : Date) (now : Int)
    (h : parseDate s = some d) :
    (check_safet_deadline s now).status = "EXPIRED" ↔
      now ≥ utcMidnight d + 30 * 86400 := by
  obtain ⟨hst, -, -, -, -⟩ := check_valid_fields s d now h
  rw [hst]
  split_ifs with h1 h2
  · exact ⟨fun _ => by omega, fun _ => rfl⟩
  · exact ⟨fun he => absurd he (by decide), fun hge => absurd hge (by omega)⟩
  · exact ⟨fun he => absurd he (by decide), fun hge => absurd hge (by omega)⟩

/-- C3 witness: order date `2026-01-05` evaluated exactly at its deadline
instant `2026-02-04T00:00:00Z` (diff_seconds = 0) is `EXPIRED`. -/
theorem C3_expired_iff_past_deadline_witness :
    (check_safet_deadline "2026-01-05" 1770163200).status = "EXPIRED" :=
  (C3_expired_iff_past_deadline "2026-01-05" ⟨2026, 1, 5⟩ 1770163200
    (by decide)).mpr (by decide)

/-! ### C4 -/

/-- C4: for every valid `order_date` and reference instant, the status is
`URGENT` exactly when `0 < diff_seconds` and `days_left ≤ 5`, and `SAFE`
for the remaining (non-expired) inputs, i.e. when `0 < diff_seconds` and
`days_left > 5`. -/
theorem C4_urgent_iff (s : String) (d : Date) (now : Int)
    (h : parseDate s = some d) :
    ((check_safet_deadline s now).status = "URGENT" ↔
      0 < utcMidnight d + 30 * 86400 - now ∧
        (check_safet_deadline s now).days_left ≤ 5) ∧
    (0 < utcMidnight d + 30 * 86400 - now →
      5 < (check_safet_deadline s now).days_left →
      (check_safet_deadline s now).status = "SAFE") := by
  obtain ⟨hst, hd, -, -, -⟩ := check_valid_fields s d now h
  rw [hst, hd]
  split_ifs with h1 h2
  · exact ⟨⟨fun he => absurd he (by decide), fun hc => absurd hc.1 (by omega)⟩,
      fun hp _ => absurd hp (by omega)⟩
  · exact ⟨⟨fun _ => ⟨by omega, h2⟩, fun _ => rfl⟩, fun _ hgt => absurd hgt (by omega)⟩
  · exact ⟨⟨fun he => absurd he (by decide), fun hc => absurd hc.2 (by omega)⟩,
      fun _ _ => rfl⟩

/-- C4 witness: with order date `2026-02-10`, a reference instant leaving
5 days 3 hours (`days_left = 5`, `hours_left = 3`) is `URGENT`, and one
leaving exactly 6 days (`days_left = 6`, `hours_left = 0`) is `SAFE`. -/
theorem C4_urgent_iff_witness :
    (check_safet_deadline "2026-02-10" 1772830800).status = "URGENT" ∧
    (check_safet_deadline "2026-02-10" 1772755200).status = "SAFE" :=
  ⟨(C4_urgent_iff "2026-02-10" ⟨2026, 2, 10⟩ 1772830800 (by decide)).1.mpr
      ⟨by decide, by decide⟩,
   (C4_urgent_iff "2026-02-10" ⟨2026, 2, 10⟩ 1772755200 (by decide)).2
      (by decide) (by decide)⟩

/-! ### C5 -/

/-- C5: for every `diff_seconds` (positive, zero or negative) arising from a
valid date, the calculator decomposes it as
`days_left = floor(diff / 86400)` and
`hours_left = floor((diff mod 86400) / 3600)` with the floor/mod convention
(`86400 * days_left ≤ diff < 86400 * (days_left + 1)`,
`0 ≤ diff mod 86400 < 86400`), so for negative `diff_seconds` the
`days_left` field is negative or zero, not truncated toward zero. -/
theorem C5_floor_decomposition (s : String) (d : Date) (now : Int)
    (h : parseDate s = some d) :
    (check_safet_deadline s now).days_left =
      (utcMidnight d + 30 * 86400 - now) / 86400 ∧
    (check_safet_deadline s now).hours_left =
      ((utcMidnight d + 30 * 86400 - now) % 86400) / 3600 ∧
    86400 * (check_safet_deadline s now).days_left ≤
      utcMidnight d + 30 * 86400 - now ∧
    utcMidnight d + 30 * 86400 - now <
      86400 * ((check_safet_deadline s now).days_left + 1) ∧
    0 ≤ (utcMidnight d + 30 * 86400 - now) % 86400 ∧
    (utcMidnight d + 30 * 86400 - now) % 86400 < 86400 ∧
    (utcMidnight d + 30 * 86400 - now < 0 →
      (check_safet_deadline s now).days_left ≤ 0) := by
  obtain ⟨-, hd, hh, -, -⟩ := check_valid_fields s d now h
  rw [hd, hh]
  norm_num
  omega

/-- C5 witness: order date `2026-02-10` evaluated one hour past its
deadline (`diff_seconds = -3600`): floor division gives `days_left = -1`
and `hours_left = 23` (truncation toward zero would give `0` and `-1`). -/
theorem C5_floor_decomposition_witness :
    (check_safet_deadline "2026-02-10" 1773277200).days_left = -1 ∧
    (check_safet_deadline "2026-02-10" 1773277200).hours_left = 23 := by
  have h := C5_floor_decomposition "2026-02-10" ⟨2026, 2, 10⟩ 1773277200 (by decide)
  exact ⟨h.1.trans (by decide), h.2.1.trans (by decide)⟩

/-! ### C10 -/

/-- C10: every non-`ERROR` result has `hours_left ∈ [0, 24)` — also when
expired with negative `days_left` — and whenever `days_left ≤ 0` both
locale time strings consist of the hour component only, a nonnegative
figure. -/
theorem C10_hours_bounds_and_hour_only_strings (s : String) (now : Int)
    (h : (check_safet_deadline s now).status ≠ "ERROR") :
    0 ≤ (check_safet_deadline s now).hours_left ∧
    (check_safet_deadline s now).hours_left < 24 ∧
    ((check_safet_deadline s now).days_left ≤ 0 →
      (check_safet_deadline s now).time_left_str_zh =
        some (toString (check_safet_deadline s now).hours_left ++ "小时") ∧
      (check_safet_deadline s now).time_left_str_en =
        some (toString (check_safet_deadline s now).hours_left ++ "h")) := by
  cases hp : parseDate s with
  | none => exact absurd (by rw [check_safet_deadline_invalid s now hp]) h
  | some d =>
    obtain ⟨-, hd, hh, hzh, hen⟩ := check_valid_fields s d now hp
    refine ⟨by rw [hh]; omega, by rw [hh]; omega, fun hdle => ?_⟩
    rw [hd] at hdle
    rw [hzh, hen, hh, if_neg (by omega), if_neg (by omega)]
    exact ⟨rfl, rfl⟩

/-- C10 witness: order date `2026-02-10` one hour past its deadline is
`EXPIRED` with `days_left = -1`, yet `hours_left = 23 ∈ [0, 24)` and both
time strings are hour-only. -/
theorem C10_hours_bounds_witness :
    0 ≤ (check_safet_deadline "2026-02-10" 1773277200).hours_left ∧
    (check_safet_deadline "2026-02-10" 1773277200).hours_left < 24 ∧
    ((check_safet_deadline "2026-02-10" 1773277200).days_left ≤ 0 →
      (check_safet_deadline "2026-02-10" 1773277200).time_left_str_zh =
        some (toString (check_safet_deadline "2026-02-10" 1773277200).hours_left ++ "小时") ∧
      (check_safet_deadline "2026-02-10" 1773277200).time_left_str_en =
        some (toString (check_safet_deadline "2026-02-10" 1773277200).hours_left ++ "h")) :=
  C10_hours_bounds_and_hour_only_strings "2026-02-10" 1773277200 (by decide)

/-! ### C7 -/

/-- C7 counterexample: the `ERROR` result for a malformed date string does
NOT carry a message in both locales — the source's `ERROR` dictionary has a
single `message` key and no `message_zh` / `message_en` keys, so the claim
that every result carries a bilingual message is false. -/
theorem C7_counterexample :
    (check_safet_deadline "bad-date" 0).status = "ERROR" ∧
    (check_safet_deadline "bad-date" 0).message_zh = none ∧
    (check_safet_deadline "bad-date" 0).message_en = none := by decide

/-- C7 amended: every result has one of the four statuses with the color
tied one-to-one to the status (ERROR orange, EXPIRED gray, URGENT red,
SAFE green); the non-`ERROR` results carry messages in both locales, while
the `ERROR` result carries a single (Chinese) `message`, `days_left = 0`,
`hours_left = 0` and an empty `time_left_str`; no exception reaches the
caller (the function is total). -/
theorem C7_amended_colors_and_error_shape (s : String) (now : Int) :
    ((check_safet_deadline s now).status = "ERROR" ∨
     (check_safet_deadline s now).status = "EXPIRED" ∨
     (check_safet_deadline s now).status = "URGENT" ∨
     (check_safet_deadline s now).status = "SAFE") ∧
    ((check_safet_deadline s now).status = "ERROR" →
      (check_safet_deadline s now).message =
        some "❌ 订单日期格式错误！请输入 YYYY-MM-DD 格式" ∧
      (check_safet_deadline s now).message_zh = none ∧
      (check_safet_deadline s now).message_en = none ∧
      (check_safet_deadline s now).days_left = 0 ∧
      (check_safet_deadline s now).hours_left = 0 ∧
      (check_safet_deadline s now).time_left_str = some "" ∧
      (check_safet_deadline s now).color = "orange") ∧
    ((check_safet_deadline s now).status ≠ "ERROR" →
      (check_safet_deadline s now).message_zh.isSome = true ∧
      (check_safet_deadline s now).message_en.isSome = true) ∧
    (((check_safet_deadline s now).status = "ERROR" ↔
        (check_safet_deadline s now).color = "orange") ∧
     ((check_safet_deadline s now).status = "EXPIRED" ↔
        (check_safet_deadline s now).color = "gray") ∧
     ((check_safet_deadline s now).status = "URGENT" ↔
        (check_safet_deadline s now).color = "red") ∧
     ((check_safet_deadline s now).status = "SAFE" ↔
        (check_safet_deadline s now).color = "green")) := by
  cases hp : parseDate s with
  | none =>
    rw [check_safet_deadline_invalid s now hp]
    exact ⟨Or.inl rfl, fun _ => ⟨rfl, rfl, rfl, rfl, rfl, rfl, rfl⟩,
      fun hc => absurd rfl hc, by decide⟩
  | some d =>
    rw [check_safet_deadline_valid s d now hp]
    dsimp only
    split_ifs <;>
      exact ⟨by simp, fun hc => absurd hc (by simp), fun _ => ⟨rfl, rfl⟩, by simp⟩

/-- C7 witness: the amended theorem applied to the malformed date
`"bad-date"`, discharging the `ERROR`-branch hypothesis. -/
theorem C7_amended_witness :
    (check_safet_deadline "bad-date" 0).message =
      some "❌ 订单日期格式错误！请输入 YYYY-MM-DD 格式" ∧
    (check_safet_deadline "bad-date" 0).days_left = 0 ∧
    (check_safet_deadline "bad-date" 0).hours_left = 0 ∧
    (check_safet_deadline "bad-date" 0).time_left_str = some "" ∧
    (check_safet_deadline "bad-date" 0).color = "orange" := by
  have h := (C7_amended_colors_and_error_shape "bad-date" 0).2.1 (by decide)
  exact ⟨h.1, h.2.2.2.1, h.2.2.2.2.1, h.2.2.2.2.2.1, h.2.2.2.2.2.2⟩

/-! ### C2 -/

/-- C2: evaluating the aggregator on a batch whose first claim has a valid
identifier but a malformed order date.  Contrary to the claim (and the
spec's stated intent that a malformed claim never aborts the batch), the
detail-record construction reads `result["time_left_str_zh"]`, a key the
`ERROR` dictionary does not have, so a `KeyError` escapes and the second
(fully valid) claim is never processed. -/
theorem C2_keyerror_aborts_batch :
    generate_dashboard_data 0 (some
      [{ order_id := "114-9283-001", order_date := "2026-13-99" },
       { order_id := "225-8765-002", order_date := "2026-01-05" }]) =
      Except.error "KeyError: time_left_str_zh" := by rfl

/-! ### C8 -/

/-- C8: the appeal-draft generator re-validates the identifier and returns
the format-rejection string on an invalid identifier regardless of reason
code; on a valid identifier an unknown reason code yields the
unsupported-reason rejection string; on a valid identifier with reason
`EMPTY_BOX` the draft is exactly a template embedding the identifier and
containing the shipped-versus-returned weight-discrepancy phrase (shown
here as an explicit decomposition around that phrase).  The function is
total: no exception is raised. -/
theorem C8_appeal_draft (reason_code order_id : String) :
    (check_order_id_format order_id = false →
      generate_ai_appeal_draft reason_code order_id = invalidIdMessage) ∧
    (check_order_id_format order_id = true →
      reason_code ≠ "EMPTY_BOX" → reason_code ≠ "DAMAGED" → reason_code ≠ "SWITCHED" →
      generate_ai_appeal_draft reason_code order_id = unsupportedReasonMessage) ∧
    (check_order_id_format order_id = true →
      generate_ai_appeal_draft "EMPTY_BOX" order_id =
        "Dear Amazon Support,\n" ++
        "This is a formal SAFE-T claim for Order " ++ order_id ++
        " (adapt to Amazon 2026 30-day new policy).\n" ++
        "The buyer returned an EMPTY PACKAGE, which is a suspicious return behavior. " ++
        "Our outbound shipping weight was 0.8kg, but the returned weight was only 0.05kg" ++
        " (no product included).\n" ++
        "We request Amazon to review this claim and arrange the corresponding reimbursement as soon as possible.\n" ++
        "Thank you for your processing!") := by
  refine ⟨fun h => ?_, fun hv h1 h2 h3 => ?_, fun hv => ?_⟩
  · simp [generate_ai_appeal_draft, h]
  · simp [generate_ai_appeal_draft, hv, h1, h2, h3]
  · unfold generate_ai_appeal_draft
    rw [if_neg (by simp [hv]), if_pos rfl]
    unfold emptyBoxTemplate
    rw [show ("The buyer returned an EMPTY PACKAGE, which is a suspicious return behavior. Our outbound shipping weight was 0.8kg, but the returned weight was only 0.05kg (no product included).\n" : String) =
          "The buyer returned an EMPTY PACKAGE, which is a suspicious return behavior. " ++
          "Our outbound shipping weight was 0.8kg, but the returned weight was only 0.05kg" ++
          " (no product included).\n" from rfl]
    simp [String.append_assoc]

/-- C8 witness: the theorem applied at concrete inputs — an invalid
identifier with reason `EMPTY_BOX`, and the valid identifier
`114-9283-001` with the unknown reason `FOO`. -/
theorem C8_appeal_draft_witness :
    generate_ai_appeal_draft "EMPTY_BOX" "123456" = invalidIdMessage ∧
    generate_ai_appeal_draft "FOO" "114-9283-001" = unsupportedReasonMessage :=
  ⟨(C8_appeal_draft "EMPTY_BOX" "123456").1 (by decide),
   (C8_appeal_draft "FOO" "114-9283-001").2.1 (by decide)
     (by decide) (by decide) (by decide)⟩

/-! ### Helper lemmas about the aggregation loop -/

theorem except_ok_bind {ε α β : Type} (a : α) (g : α → Except ε β) :
    (Except.ok a : Except ε α) >>= g = g a := rfl

theorem except_error_bind {ε α β : Type} (e : ε) (g : α → Except ε β) :
    (Except.error e : Except ε α) >>= g = Except.error e := rfl

/-- On a parseable date the calculator's bilingual message fields are
populated. -/
theorem check_valid_messages (s : String) (d : Date) (now : Int)
    (h : parseDate s = some d) :
    ∃ mz me, (check_safet_deadline s now).message_zh = some mz ∧
      (check_safet_deadline s now).message_en = some me := by
  rw [check_safet_deadline_valid s d now h]
  dsimp only
  split_ifs <;> exact ⟨_, _, rfl, rfl⟩

/-- An invalid identifier is skipped: the loop body leaves the dashboard
unchanged. -/
theorem processOrder_invalid (now : Int) (db : Dashboard) (o : OrderClaim)
    (h : check_order_id_format o.order_id = false) :
    processOrder now db o = Except.ok db := by
  unfold processOrder
  rw [if_pos (by simp [h])]

/-- A valid identifier with a parseable date always yields a successor
dashboard (no `KeyError` on the time-based results). -/
theorem processOrder_ok_of_valid (now : Int) (db : Dashboard) (o : OrderClaim)
    (d : Date) (hv : check_order_id_format o.order_id = true)
    (hp : parseDate o.order_date = some d) :
    ∃ db', processOrder now db o = Except.ok db' := by
  unfold processOrder
  rw [if_neg (by simp [hv])]
  obtain ⟨-, -, -, hzh, hen⟩ := check_valid_fields o.order_date d now hp
  obtain ⟨mz, me, hmz, hme⟩ := check_valid_messages o.order_date d now hp
  dsimp only
  rw [hzh, hen, hmz, hme]
  simp only [getKey, except_ok_bind]
  exact ⟨_, rfl⟩

/-- Reduction of one loop iteration for a valid identifier and parseable
date, exposing the appended detail record and the counter update. -/
theorem processOrder_valid_parse_eq (now : Int) (db : Dashboard) (o : OrderClaim)
    (tzh ten mz me : String)
    (hv : check_order_id_format o.order_id = true)
    (hzh : (check_safet_deadline o.order_date now).time_left_str_zh = some tzh)
    (hen : (check_safet_deadline o.order_date now).time_left_str_en = some ten)
    (hmz : (check_safet_deadline o.order_date now).message_zh = some mz)
    (hme : (check_safet_deadline o.order_date now).message_en = some me) :
    processOrder now db o = Except.ok
      (let db2 : Dashboard := { db with order_details := db.order_details ++
        [{ order_id := o.order_id
           order_date := o.order_date
           status := (check_safet_deadline o.order_date now).status
           time_left_zh := tzh
           time_left_en := ten
           message_zh := mz
           message_en := me }] }
       if (check_safet_deadline o.order_date now).status = "EXPIRED" then
         { db2 with expired_orders := db2.expired_orders + 1 }
       else if (check_safet_deadline o.order_date now).status = "URGENT" then
         { db2 with urgent_orders := db2.urgent_orders + 1 }
       else if (check_safet_deadline o.order_date now).status = "SAFE" then
         { db2 with safe_orders := db2.safe_orders + 1 }
       else db2) := by
  unfold processOrder
  rw [if_neg (by simp [hv])]
  dsimp only
  rw [hzh, hen, hmz, hme]
  simp only [getKey, except_ok_bind]

/-- Whatever one loop iteration returns successfully: the `total_orders`
field is untouched, an invalid-identifier claim changes nothing, and a
valid-identifier claim appends exactly one detail record. -/
theorem processOrder_ok_spec (now : Int) (db : Dashboard) (o : OrderClaim)
    (db' : Dashboard) (h : processOrder now db o = Except.ok db') :
    db'.total_orders = db.total_orders ∧
    (check_order_id_format o.order_id = false → db' = db) ∧
    (check_order_id_format o.order_id = true →
      db'.order_details.length = db.order_details.length + 1) := by
  cases hv : check_order_id_format o.order_id with
  | false =>
    rw [processOrder_invalid now db o hv] at h
    injection h with h
    subst h
    exact ⟨rfl, fun _ => rfl, fun hc => absurd hc (by simp [hv])⟩
  | true =>
    cases hp : parseDate o.order_date with
    | none =>
      unfold processOrder at h
      rw [if_neg (by simp [hv])] at h
      dsimp only at h
      rw [check_safet_deadline_invalid o.order_date now hp] at h
      simp only [getKey] at h
      rw [except_error_bind] at h
      exact absurd h (by simp)
    | some d =>
      obtain ⟨-, -, -, hzh, hen⟩ := check_valid_fields o.order_date d now hp
      obtain ⟨mz, me, hmz, hme⟩ := check_valid_messages o.order_date d now hp
      rw [processOrder_valid_parse_eq now db o _ _ _ _ hv hzh hen hmz hme] at h
      injection h with h
      subst h
      refine ⟨?_, fun hc => absurd hc (by simp [hv]), fun _ => ?_⟩ <;>
        dsimp only <;> split_ifs <;> simp

/-- Folding the loop over a batch: on success, `total_orders` is preserved
and the number of detail records grows by the number of valid-format
identifiers in the batch. -/
theorem foldl_process_spec (now : Int) :
    ∀ (l : List OrderClaim) (db db' : Dashboard),
      List.foldlM (processOrder now) db l = Except.ok db' →
      db'.total_orders = db.total_orders ∧
      db'.order_details.length = db.order_details.length +
        (l.filter (fun o => check_order_id_format o.order_id)).length
  | [], db, db', h => by
      simp only [List.foldlM_nil] at h
      cases h
      simp
  | o :: l, db, db', h => by
      rw [List.foldlM_cons] at h
      cases hpo : processOrder now db o with
      | error e => rw [hpo, except_error_bind] at h; exact absurd h (by simp)
      | ok db1 =>
        rw [hpo, except_ok_bind] at h
        obtain ⟨ht, hinv, hval⟩ := processOrder_ok_spec now db o db1 hpo
        obtain ⟨ht2, hd2⟩ := foldl_process_spec now l db1 db' h
        cases hv : check_order_id_format o.order_id with
        | false =>
          cases hinv hv
          refine ⟨ht2.trans ht, ?_⟩
          rw [hd2, List.filter_cons_of_neg (by simp [hv])]
        | true =>
          refine ⟨ht2.trans ht, ?_⟩
          rw [hd2, hval hv, List.filter_cons_of_pos (by simp [hv]),
            List.length_cons]
          omega

/-! ### C1 -/

/-- Batch used to settle C1: one invalid-identifier claim between two
valid-identifier claims. -/
def C1_batch : List OrderClaim :=
  [{ order_id := "114-9283-001", order_date := "2026-02-10" },
   { order_id := "123456", order_date := "2026-01-05" },
   { order_id := "225-8765-002", order_date := "2026-02-01" }]

/-- The dashboard the aggregator produces on `C1_batch` at reference
instant 0. -/
def C1_dashboard : Dashboard :=
  match generate_dashboard_data 0 (some C1_batch) with
  | Except.ok db => db
  | Except.error _ =>
      { total_orders := 0, expired_orders := 0, urgent_orders := 0,
        safe_orders := 0, order_details := [] }

/-- C1 counterexample: on a batch with one invalid-identifier claim and two
valid claims, `total_orders` is 3 — the full batch length — while the
number of valid-format claims is 2, so `total_orders` is NOT the count of
valid-format claims. -/
theorem C1_counterexample :
    (generate_dashboard_data 0 (some C1_batch)).map Dashboard.total_orders =
      Except.ok 3 ∧
    (C1_batch.filter (fun o => check_order_id_format o.order_id)).length = 2 := by
  exact ⟨rfl, rfl⟩

/-- Invalid-identifier claims are transparent to the aggregation loop:
folding it over a batch is the same `Except` computation as folding it over
the batch restricted to valid-format identifiers. -/
theorem foldl_process_filter (now : Int) :
    ∀ (l : List OrderClaim) (db : Dashboard),
      List.foldlM (processOrder now) db l =
      List.foldlM (processOrder now) db
        (l.filter (fun o => check_order_id_format o.order_id))
  | [], _ => rfl
  | o :: l, db => by
      cases hv : check_order_id_format o.order_id with
      | false =>
        rw [List.filter_cons_of_neg (by simp [hv]), List.foldlM_cons,
          processOrder_invalid now db o hv, except_ok_bind]
        exact foldl_process_filter now l db
      | true =>
        rw [List.filter_cons_of_pos (by simp [hv]), List.foldlM_cons,
          List.foldlM_cons]
        cases hpo : processOrder now db o with
        | error e => rw [except_error_bind, except_error_bind]
        | ok db1 =>
          rw [except_ok_bind, except_ok_bind]
          exact foldl_process_filter now l db1

/-- C1 amended: for a nonempty batch, `total_orders` equals the length of
the whole batch (`len(test_orders)`), counting invalid-identifier claims
too; the invalid-identifier claims still contribute to no
expired/urgent/safe counter and no detail record — on success the number
of detail records equals the number of valid-format claims, and the whole
resulting dashboard (all three counters and the detail list included) is
exactly what folding the loop over only the valid-format claims produces
from the same initial record. -/
theorem C1_amended_total_is_batch_length (now : Int) (orders : List OrderClaim)
    (db : Dashboard) (hne : orders ≠ [])
    (h : generate_dashboard_data now (some orders) = Except.ok db) :
    db.total_orders = orders.length ∧
    db.order_details.length =
      (orders.filter (fun o => check_order_id_format o.order_id)).length ∧
    List.foldlM (processOrder now)
      { total_orders := orders.length, expired_orders := 0, urgent_orders := 0,
        safe_orders := 0, order_details := [] }
      (orders.filter (fun o => check_order_id_format o.order_id)) =
      Except.ok db := by
  unfold generate_dashboard_data at h
  have he : effectiveOrders (some orders) = orders := by
    cases orders with
    | nil => exact absurd rfl hne
    | cons a l => rfl
  rw [he] at h
  obtain ⟨h1, h2⟩ := foldl_process_spec now orders _ db h
  exact ⟨h1, by simpa using h2, (foldl_process_filter now orders _).symm.trans h⟩

/-- C1 witness: the amended theorem applied to `C1_batch` at instant 0. -/
theorem C1_amended_witness :
    C1_dashboard.total_orders = C1_batch.length ∧
    C1_dashboard.order_details.length =
      (C1_batch.filter (fun o => check_order_id_format o.order_id)).length ∧
    List.foldlM (processOrder 0)
      { total_orders := C1_batch.length, expired_orders := 0,
        urgent_orders := 0, safe_orders := 0, order_details := [] }
      (C1_batch.filter (fun o => check_order_id_format o.order_id)) =
      Except.ok C1_dashboard :=
  C1_amended_total_is_batch_length 0 C1_batch C1_dashboard (by decide) (by rfl)

/-! ### C9 -/

/-- Folding the loop over the three built-in demonstration claims succeeds
from any starting dashboard, preserves `total_orders`, and appends exactly
three detail records. -/
theorem foldl_defaults_ok (now : Int) (db0 : Dashboard) :
    ∃ db, List.foldlM (processOrder now) db0 default_test_orders = Except.ok db ∧
      db.total_orders = db0.total_orders ∧
      db.order_details.length = db0.order_details.length + 3 := by
  obtain ⟨db1, h1⟩ := processOrder_ok_of_valid now db0
    { order_id := "114-9283-001", order_date := "2026-02-10" }
    ⟨2026, 2, 10⟩ (by decide) (by decide)
  obtain ⟨db2, h2⟩ := processOrder_ok_of_valid now db1
    { order_id := "225-8765-002", order_date := "2026-01-05" }
    ⟨2026, 1, 5⟩ (by decide) (by decide)
  obtain ⟨db3, h3⟩ := processOrder_ok_of_valid now db2
    { order_id := "336-7654-003", order_date := "2026-02-01" }
    ⟨2026, 2, 1⟩ (by decide) (by decide)
  obtain ⟨t1, -, l1⟩ := processOrder_ok_spec now db0 _ db1 h1
  obtain ⟨t2, -, l2⟩ := processOrder_ok_spec now db1 _ db2 h2
  obtain ⟨t3, -, l3⟩ := processOrder_ok_spec now db2 _ db3 h3
  refine ⟨db3, ?_, ?_, ?_⟩
  · unfold default_test_orders
    rw [List.foldlM_cons, h1, except_ok_bind, List.foldlM_cons, h2,
      except_ok_bind, List.foldlM_cons, h3, except_ok_bind, List.foldlM_nil]
    rfl
  · rw [t3, t2, t1]
  · rw [l3 (by decide), l2 (by decide), l1 (by decide)]

/-- C9: calling the aggregator with an explicitly empty claim list does not
produce an empty summary: the falsy-argument default substitution kicks in,
the result is identical to calling with no argument, and it is the
dashboard over the three built-in demonstration claims: `total_orders = 3`
and three detail records, at every reference instant. -/
theorem C9_empty_list_uses_default (now : Int) :
    generate_dashboard_data now (some []) = generate_dashboard_data now none ∧
    ∃ db, generate_dashboard_data now (some []) = Except.ok db ∧
      db.total_orders = 3 ∧ db.order_details.length = 3 := by
  refine ⟨rfl, ?_⟩
  unfold generate_dashboard_data
  dsimp only
  obtain ⟨db, hf, ht, hl⟩ := foldl_defaults_ok now
    { total_orders := (effectiveOrders (some [])).length, expired_orders := 0,
      urgent_orders := 0, safe_orders := 0, order_details := [] }
  refine ⟨db, ?_, ?_, ?_⟩
  · rw [show effectiveOrders (some []) = default_test_orders from rfl] at hf ⊢
    exact hf
  · rw [ht]
    rfl
  · rw [hl]
    rfl

/-! ### C6 -/

/-- C6 counterexample: Python's `$` also matches just before a final
newline, so `re.match(r'^\d{3}-\d{4}-\d{3}$', ...)` accepts
`"114-9283-001\n"` even though that string does not consist solely of the
digit/hyphen pattern — an extra character IS tolerated, refuting the
claimed iff. -/
theorem C6_counterexample :
    check_order_id_format "114-9283-001\n" = true ∧
    spec_order_id_format "114-9283-001\n" = false := by decide

/-- C6 amended: the validator returns true iff the string matches the
exact three-digits/hyphen/four-digits/hyphen/three-digits pattern, either
on the whole string or on the whole string minus a single trailing newline
(Python `$` semantics); empty or absent input still yields false rather
than an error. -/
theorem C6_amended_match_or_trailing_newline (s : String) :
    check_order_id_format s = true ↔
      (spec_order_id_format s = true ∨
       ∃ l, s.toList = l ++ ['\n'] ∧ spec_order_id_format (String.mk l) = true) := by
  constructor
  · intro h
    unfold check_order_id_format at h
    split_ifs at h with h0
    unfold id_regex_match at h
    split at h
    next a b c x d e f g y p q r rest heq =>
      simp only [Bool.and_eq_true, Bool.or_eq_true, beq_iff_eq] at h
      obtain ⟨⟨⟨⟨⟨⟨⟨⟨⟨⟨⟨⟨h1, h2⟩, h3⟩, hx⟩, h4⟩, h5⟩, h6⟩, h7⟩, hy⟩, h8⟩, h9⟩, h10⟩, hR⟩ := h
      rcases hR with hnil | hnl
      · left
        unfold spec_order_id_format
        rw [heq, hnil]
        simp [h1, h2, h3, hx, h4, h5, h6, h7, hy, h8, h9, h10]
      · right
        refine ⟨[a, b, c, x, d, e, f, g, y, p, q, r], by rw [heq, hnl]; rfl, ?_⟩
        unfold spec_order_id_format
        simp [h1, h2, h3, hx, h4, h5, h6, h7, hy, h8, h9, h10]
    next => exact absurd h (by simp)
  · rintro (hspec | ⟨l, hl, hspec⟩)
    · unfold spec_order_id_format at hspec
      split at hspec
      next a b c x d e f g y p q r heq =>
        simp only [Bool.and_eq_true, beq_iff_eq] at hspec
        obtain ⟨⟨⟨⟨⟨⟨⟨⟨⟨⟨⟨h1, h2⟩, h3⟩, hx⟩, h4⟩, h5⟩, h6⟩, h7⟩, hy⟩, h8⟩, h9⟩, h10⟩ := hspec
        unfold check_order_id_format
        have hne : ¬ s = "" := by
          intro h0
          rw [h0] at heq
          have hnil : ([] : List Char) = [a, b, c, x, d, e, f, g, y, p, q, r] := heq
          simp at hnil
        rw [if_neg hne, heq]
        simp [id_regex_match, h1, h2, h3, hx, h4, h5, h6, h7, hy, h8, h9, h10]
      next => exact absurd hspec (by simp)
    · unfold spec_order_id_format at hspec
      split at hspec
      next a b c x d e f g y p q r heq =>
        simp only [Bool.and_eq_true, beq_iff_eq] at hspec
        obtain ⟨⟨⟨⟨⟨⟨⟨⟨⟨⟨⟨h1, h2⟩, h3⟩, hx⟩, h4⟩, h5⟩, h6⟩, h7⟩, hy⟩, h8⟩, h9⟩, h10⟩ := hspec
        have hleq : l = [a, b, c, x, d, e, f, g, y, p, q, r] := heq
        unfold check_order_id_format
        have hne : ¬ s = "" := by
          intro h0
          rw [h0] at hl
          have hnil : ([] : List Char) = l ++ ['\n'] := hl
          simp at hnil
        rw [if_neg hne, hl, hleq]
        simp [id_regex_match, h1, h2, h3, hx, h4, h5, h6, h7, hy, h8, h9, h10]
      next => exact absurd hspec (by simp)

end SafeT
